import Mathlib

/-!
Verification of the `expresss-error-package` repository: a shallow embedding
of its error taxonomy (`src/error.ts`), status-code tables
(`src/statusCodes.ts`, reproduced verbatim in the repository docs), response
formatter `handleError`, terminal handler `globalErrorHandler` (current and
superseded variants), and the dispatch-interceptor `wrap` transform
(`src/express-error.ts` / `src/index.ts`).

Modelling conventions:
- JS `undefined` for optional strings/numbers is `Option.none`; a TS default
  parameter `x = d` becomes `x.getD d` (or `Option.orElse`), applied exactly
  when the caller passes `undefined`.
- JS numbers that only ever hold HTTP status codes are `Nat`.
-/

/-- `HttpStatusCodes.INTERNAL_SERVER_ERROR` from `src/statusCodes.ts`. -/
def HttpStatusCodes.INTERNAL_SERVER_ERROR : Nat := 500

/-- `HttpStatusCodes.BAD_REQUEST` from `src/statusCodes.ts`. -/
def HttpStatusCodes.BAD_REQUEST : Nat := 400

/-- `HttpStatusCodes.UNAUTHORIZED` from `src/statusCodes.ts`. -/
def HttpStatusCodes.UNAUTHORIZED : Nat := 401

/-- `HttpStatusCodes.PAYMENT_REQUIRED` from `src/statusCodes.ts`. -/
def HttpStatusCodes.PAYMENT_REQUIRED : Nat := 402

/-- `HttpStatusCodes.FORBIDDEN` from `src/statusCodes.ts`. -/
def HttpStatusCodes.FORBIDDEN : Nat := 403

/-- `HttpStatusCodes.NOT_FOUND` from `src/statusCodes.ts`. -/
def HttpStatusCodes.NOT_FOUND : Nat := 404

/-- `HttpStatusCodes.METHOD_NOT_ALLOWED` from `src/statusCodes.ts`. -/
def HttpStatusCodes.METHOD_NOT_ALLOWED : Nat := 405

/-- `HttpStatusCodes.NOT_ACCEPTABLE` from `src/statusCodes.ts`. -/
def HttpStatusCodes.NOT_ACCEPTABLE : Nat := 406

/-- `HttpStatusCodes.REQUEST_TIMEOUT` from `src/statusCodes.ts`. -/
def HttpStatusCodes.REQUEST_TIMEOUT : Nat := 408

/-- `HttpStatusCodes.CONFLICT` from `src/statusCodes.ts`. -/
def HttpStatusCodes.CONFLICT : Nat := 409

/-- `HttpStatusCodes.GONE` from `src/statusCodes.ts`. -/
def HttpStatusCodes.GONE : Nat := 410

/-- `HttpStatusCodes.PRECONDITION_FAILED` from `src/statusCodes.ts`. -/
def HttpStatusCodes.PRECONDITION_FAILED : Nat := 412

/-- `HttpStatusCodes.PAYLOAD_TOO_LARGE` from `src/statusCodes.ts`. -/
def HttpStatusCodes.PAYLOAD_TOO_LARGE : Nat := 413

/-- `HttpStatusCodes.UNSUPPORTED_MEDIA_TYPE` from `src/statusCodes.ts`. -/
def HttpStatusCodes.UNSUPPORTED_MEDIA_TYPE : Nat := 415

/-- `HttpStatusCodes.UNPROCESSABLE_ENTITY` from `src/statusCodes.ts`. -/
def HttpStatusCodes.UNPROCESSABLE_ENTITY : Nat := 422

/-- `HttpStatusCodes.TOO_MANY_REQUESTS` from `src/statusCodes.ts`. -/
def HttpStatusCodes.TOO_MANY_REQUESTS : Nat := 429

/-- `HttpStatusCodes.NOT_IMPLEMENTED` from `src/statusCodes.ts`. -/
def HttpStatusCodes.NOT_IMPLEMENTED : Nat := 501

/-- `HttpStatusCodes.BAD_GATEWAY` from `src/statusCodes.ts`. -/
def HttpStatusCodes.BAD_GATEWAY : Nat := 502

/-- `HttpStatusCodes.SERVICE_UNAVAILABLE` from `src/statusCodes.ts`. -/
def HttpStatusCodes.SERVICE_UNAVAILABLE : Nat := 503

/-- `HttpStatusCodes.GATEWAY_TIMEOUT` from `src/statusCodes.ts`. -/
def HttpStatusCodes.GATEWAY_TIMEOUT : Nat := 504

/-- `HttpStatusCodes.INSUFFICIENT_STORAGE` from `src/statusCodes.ts`. -/
def HttpStatusCodes.INSUFFICIENT_STORAGE : Nat := 507

/-- The `HttpStatusCodes` object of `src/statusCodes.ts` as an association
list in its source (insertion) order: `Object.keys` enumeration order. -/
def HttpStatusCodes : List (String × Nat) :=
  [("CONTINUE", 100),
   ("SWITCHING_PROTOCOLS", 101),
   ("PROCESSING", 102),
   ("EARLY_HINTS", 103),
   ("OK", 200),
   ("CREATED", 201),
   ("ACCEPTED", 202),
   ("NON_AUTHORITATIVE_INFORMATION", 203),
   ("NO_CONTENT", 204),
   ("RESET_CONTENT", 205),
   ("PARTIAL_CONTENT", 206),
   ("MULTI_STATUS", 207),
   ("ALREADY_REPORTED", 208),
   ("IM_USED", 226),
   ("MULTIPLE_CHOICES", 300),
   ("MOVED_PERMANENTLY", 301),
   ("FOUND", 302),
   ("SEE_OTHER", 303),
   ("NOT_MODIFIED", 304),
   ("USE_PROXY", 305),
   ("TEMPORARY_REDIRECT", 307),
   ("PERMANENT_REDIRECT", 308),
   ("BAD_REQUEST", HttpStatusCodes.BAD_REQUEST),
   ("UNAUTHORIZED", HttpStatusCodes.UNAUTHORIZED),
   ("PAYMENT_REQUIRED", HttpStatusCodes.PAYMENT_REQUIRED),
   ("FORBIDDEN", HttpStatusCodes.FORBIDDEN),
   ("NOT_FOUND", HttpStatusCodes.NOT_FOUND),
   ("METHOD_NOT_ALLOWED", HttpStatusCodes.METHOD_NOT_ALLOWED),
   ("NOT_ACCEPTABLE", HttpStatusCodes.NOT_ACCEPTABLE),
   ("PROXY_AUTHENTICATION_REQUIRED", 407),
   ("REQUEST_TIMEOUT", HttpStatusCodes.REQUEST_TIMEOUT),
   ("CONFLICT", HttpStatusCodes.CONFLICT),
   ("GONE", HttpStatusCodes.GONE),
   ("LENGTH_REQUIRED", 411),
   ("PRECONDITION_FAILED", HttpStatusCodes.PRECONDITION_FAILED),
   ("PAYLOAD_TOO_LARGE", HttpStatusCodes.PAYLOAD_TOO_LARGE),
   ("URI_TOO_LONG", 414),
   ("UNSUPPORTED_MEDIA_TYPE", HttpStatusCodes.UNSUPPORTED_MEDIA_TYPE),
   ("RANGE_NOT_SATISFIABLE", 416),
   ("EXPECTATION_FAILED", 417),
   ("IM_A_TEAPOT", 418),
   ("MISDIRECTED_REQUEST", 421),
   ("UNPROCESSABLE_ENTITY", HttpStatusCodes.UNPROCESSABLE_ENTITY),
   ("LOCKED", 423),
   ("FAILED_DEPENDENCY", 424),
   ("TOO_EARLY", 425),
   ("UPGRADE_REQUIRED", 426),
   ("PRECONDITION_REQUIRED", 428),
   ("TOO_MANY_REQUESTS", HttpStatusCodes.TOO_MANY_REQUESTS),
   ("REQUEST_HEADER_FIELDS_TOO_LARGE", 431),
   ("UNAVAILABLE_FOR_LEGAL_REASONS", 451),
   ("INTERNAL_SERVER_ERROR", HttpStatusCodes.INTERNAL_SERVER_ERROR),
   ("NOT_IMPLEMENTED", HttpStatusCodes.NOT_IMPLEMENTED),
   ("BAD_GATEWAY", HttpStatusCodes.BAD_GATEWAY),
   ("SERVICE_UNAVAILABLE", HttpStatusCodes.SERVICE_UNAVAILABLE),
   ("GATEWAY_TIMEOUT", HttpStatusCodes.GATEWAY_TIMEOUT),
   ("HTTP_VERSION_NOT_SUPPORTED", 505),
   ("VARIANT_ALSO_NEGOTIATES", 506),
   ("INSUFFICIENT_STORAGE", HttpStatusCodes.INSUFFICIENT_STORAGE),
   ("LOOP_DETECTED", 508),
   ("NOT_EXTENDED", 510),
   ("NETWORK_AUTHENTICATION_REQUIRED", 511)]

/-- The `DefaultStatusMessages` object of `src/statusCodes.ts`: numeric
status code to its canonical human-readable phrase. -/
def DefaultStatusMessages : List (Nat × String) :=
  [(100, "Continue"),
   (101, "Switching Protocols"),
   (102, "Processing"),
   (103, "Early Hints"),
   (200, "OK"),
   (201, "Created"),
   (202, "Accepted"),
   (203, "Non-Authoritative Information"),
   (204, "No Content"),
   (205, "Reset Content"),
   (206, "Partial Content"),
   (207, "Multi-Status"),
   (208, "Already Reported"),
   (226, "IM Used"),
   (300, "Multiple Choices"),
   (301, "Moved Permanently"),
   (302, "Found"),
   (303, "See Other"),
   (304, "Not Modified"),
   (305, "Use Proxy"),
   (307, "Temporary Redirect"),
   (308, "Permanent Redirect"),
   (400, "Bad Request"),
   (401, "Unauthorized"),
   (402, "Payment Required"),
   (403, "Forbidden"),
   (404, "Not Found"),
   (405, "Method Not Allowed"),
   (406, "Not Acceptable"),
   (407, "Proxy Authentication Required"),
   (408, "Request Timeout"),
   (409, "Conflict"),
   (410, "Gone"),
   (411, "Length Required"),
   (412, "Precondition Failed"),
   (413, "Payload Too Large"),
   (414, "URI Too Long"),
   (415, "Unsupported Media Type"),
   (416, "Range Not Satisfiable"),
   (417, "Expectation Failed"),
   (418, "I\x27m a teapot"),
   (421, "Misdirected Request"),
   (422, "Unprocessable Entity"),
   (423, "Locked"),
   (424, "Failed Dependency"),
   (425, "Too Early"),
   (426, "Upgrade Required"),
   (428, "Precondition Required"),
   (429, "Too Many Requests"),
   (431, "Request Header Fields Too Large"),
   (451, "Unavailable For Legal Reasons"),
   (500, "Internal Server Error"),
   (501, "Not Implemented"),
   (502, "Bad Gateway"),
   (503, "Service Unavailable"),
   (504, "Gateway Timeout"),
   (505, "HTTP Version Not Supported"),
   (506, "Variant Also Negotiates"),
   (507, "Insufficient Storage"),
   (508, "Loop Detected"),
   (510, "Not Extended"),
   (511, "Network Authentication Required")]

/-- JS object indexing `DefaultStatusMessages[n]`: the phrase for `n`, or
`undefined` (`none`) when `n` has no entry. -/
def defaultStatusMessage (n : Nat) : Option String :=
  (DefaultStatusMessages.find? (fun p => p.1 == n)).map Prod.snd

/-- `getStatusCodeKey` from `src/error.ts`:
`Object.keys(HttpStatusCodes).find(k => HttpStatusCodes[k] === statusCode)`,
falling back to `"INTERNAL_SERVER_ERROR"` when there is no match. -/
def getStatusCodeKey (statusCode : Nat) : String :=
  match HttpStatusCodes.find? (fun p => p.2 == statusCode) with
  | some p => p.1
  | none => "INTERNAL_SERVER_ERROR"

/-- The `AppError` class of `src/error.ts`: message (possibly `undefined`
when a caller omits `ServerError`'s required message), numeric status code,
operational flag (field name `isOparational` as in the source), and machine
code. -/
structure AppError where
  message : Option String
  statusCode : Nat
  isOparational : Bool
  code : String
deriving DecidableEq

/-- The `AppError` constructor body: `this.code = code ?? getStatusCodeKey(statusCode)`. -/
def AppError.make (message : Option String) (statusCode : Nat)
    (isOparational : Bool) (code : Option String) : AppError :=
  { message := message
    statusCode := statusCode
    isOparational := isOparational
    code := code.getD (getStatusCodeKey statusCode) }

/-- `ServerError` from `src/error.ts`: message is a required parameter (no
default), `statusCode` defaults to `HttpStatusCodes.INTERNAL_SERVER_ERROR`.
`none` for `message` models a JS caller passing `undefined`/omitting it. -/
def ServerError (message : Option String) (statusCode : Option Nat) : AppError :=
  AppError.make message (statusCode.getD HttpStatusCodes.INTERNAL_SERVER_ERROR) true none

/-- `BadRequestError` from `src/error.ts`: message defaults to
`DefaultStatusMessages[HttpStatusCodes.BAD_REQUEST]`. -/
def BadRequestError (message : Option String) : AppError :=
  AppError.make (message.orElse fun _ => defaultStatusMessage HttpStatusCodes.BAD_REQUEST)
    HttpStatusCodes.BAD_REQUEST true none

/-- `NotFoundError` from `src/error.ts`. -/
def NotFoundError (message : Option String) : AppError :=
  AppError.make (message.orElse fun _ => defaultStatusMessage HttpStatusCodes.NOT_FOUND)
    HttpStatusCodes.NOT_FOUND true none

/-- `UnauthorizedError` from `src/error.ts`. -/
def UnauthorizedError (message : Option String) : AppError :=
  AppError.make (message.orElse fun _ => defaultStatusMessage HttpStatusCodes.UNAUTHORIZED)
    HttpStatusCodes.UNAUTHORIZED true none

/-- `ForbiddenError` from `src/error.ts`. -/
def ForbiddenError (message : Option String) : AppError :=
  AppError.make (message.orElse fun _ => defaultStatusMessage HttpStatusCodes.FORBIDDEN)
    HttpStatusCodes.FORBIDDEN true none

/-- `ConflictError` from `src/error.ts`. -/
def ConflictError (message : Option String) : AppError :=
  AppError.make (message.orElse fun _ => defaultStatusMessage HttpStatusCodes.CONFLICT)
    HttpStatusCodes.CONFLICT true none

/-- `UnprocessableEntityError` from `src/error.ts`. -/
def UnprocessableEntityError (message : Option String) : AppError :=
  AppError.make (message.orElse fun _ => defaultStatusMessage HttpStatusCodes.UNPROCESSABLE_ENTITY)
    HttpStatusCodes.UNPROCESSABLE_ENTITY true none

/-- `MethodNotAllowedError` from `src/error.ts`. -/
def MethodNotAllowedError (message : Option String) : AppError :=
  AppError.make (message.orElse fun _ => defaultStatusMessage HttpStatusCodes.METHOD_NOT_ALLOWED)
    HttpStatusCodes.METHOD_NOT_ALLOWED true none

/-- `NotAcceptableError` from `src/error.ts`. -/
def NotAcceptableError (message : Option String) : AppError :=
  AppError.make (message.orElse fun _ => defaultStatusMessage HttpStatusCodes.NOT_ACCEPTABLE)
    HttpStatusCodes.NOT_ACCEPTABLE true none

/-- `RequestTimeoutError` from `src/error.ts`. -/
def RequestTimeoutError (message : Option String) : AppError :=
  AppError.make (message.orElse fun _ => defaultStatusMessage HttpStatusCodes.REQUEST_TIMEOUT)
    HttpStatusCodes.REQUEST_TIMEOUT true none

/-- `PayloadTooLargeError` from `src/error.ts`. -/
def PayloadTooLargeError (message : Option String) : AppError :=
  AppError.make (message.orElse fun _ => defaultStatusMessage HttpStatusCodes.PAYLOAD_TOO_LARGE)
    HttpStatusCodes.PAYLOAD_TOO_LARGE true none

/-- `UnsupportedMediaTypeError` from `src/error.ts`. -/
def UnsupportedMediaTypeError (message : Option String) : AppError :=
  AppError.make (message.orElse fun _ => defaultStatusMessage HttpStatusCodes.UNSUPPORTED_MEDIA_TYPE)
    HttpStatusCodes.UNSUPPORTED_MEDIA_TYPE true none

/-- `TooManyRequestsError` from `src/error.ts`. -/
def TooManyRequestsError (message : Option String) : AppError :=
  AppError.make (message.orElse fun _ => defaultStatusMessage HttpStatusCodes.TOO_MANY_REQUESTS)
    HttpStatusCodes.TOO_MANY_REQUESTS true none

/-- `PaymentRequiredError` from `src/error.ts`. -/
def PaymentRequiredError (message : Option String) : AppError :=
  AppError.make (message.orElse fun _ => defaultStatusMessage HttpStatusCodes.PAYMENT_REQUIRED)
    HttpStatusCodes.PAYMENT_REQUIRED true none

/-- `GoneError` from `src/error.ts`. -/
def GoneError (message : Option String) : AppError :=
  AppError.make (message.orElse fun _ => defaultStatusMessage HttpStatusCodes.GONE)
    HttpStatusCodes.GONE true none

/-- `PreconditionFailedError` from `src/error.ts`. -/
def PreconditionFailedError (message : Option String) : AppError :=
  AppError.make (message.orElse fun _ => defaultStatusMessage HttpStatusCodes.PRECONDITION_FAILED)
    HttpStatusCodes.PRECONDITION_FAILED true none

/-- `NotImplementedError` from `src/error.ts`. -/
def NotImplementedError (message : Option String) : AppError :=
  AppError.make (message.orElse fun _ => defaultStatusMessage HttpStatusCodes.NOT_IMPLEMENTED)
    HttpStatusCodes.NOT_IMPLEMENTED true none

/-- `BadGatewayError` from `src/error.ts`. -/
def BadGatewayError (message : Option String) : AppError :=
  AppError.make (message.orElse fun _ => defaultStatusMessage HttpStatusCodes.BAD_GATEWAY)
    HttpStatusCodes.BAD_GATEWAY true none

/-- `ServiceUnavailableError` from `src/error.ts`. -/
def ServiceUnavailableError (message : Option String) : AppError :=
  AppError.make (message.orElse fun _ => defaultStatusMessage HttpStatusCodes.SERVICE_UNAVAILABLE)
    HttpStatusCodes.SERVICE_UNAVAILABLE true none

/-- `GatewayTimeoutError` from `src/error.ts`. -/
def GatewayTimeoutError (message : Option String) : AppError :=
  AppError.make (message.orElse fun _ => defaultStatusMessage HttpStatusCodes.GATEWAY_TIMEOUT)
    HttpStatusCodes.GATEWAY_TIMEOUT true none

/-- `InsufficientStorageError` from `src/error.ts`. -/
def InsufficientStorageError (message : Option String) : AppError :=
  AppError.make (message.orElse fun _ => defaultStatusMessage HttpStatusCodes.INSUFFICIENT_STORAGE)
    HttpStatusCodes.INSUFFICIENT_STORAGE true none

/-- Input to `handleError` (`err: Error | AppError`): either a value that is
`instanceof AppError`, or any other JS value, carrying whatever `message`,
`statusCode` and `code` fields it may happen to have (the formatter never
reads them). -/
inductive ErrValue where
  | app (e : AppError)
  | other (message : Option String) (statusCode : Option Nat) (code : Option String)
deriving DecidableEq

/-- The `err instanceof AppError && err.isOparational` guard of
`handleError`, as a Boolean on the formatter's input. -/
def isOperationalAppError : ErrValue → Bool
  | .app e => e.isOparational
  | .other _ _ _ => false

/-- The error response envelope returned by `handleError` and serialized by
`globalErrorHandler` in `src/error.ts`. -/
structure ErrorResponse where
  status : String
  statusCode : Nat
  message : Option String
  code : String
deriving DecidableEq

/-- `handleError` from `src/error.ts`: operational `AppError`s are echoed
verbatim; everything else collapses to the generic 500 envelope. -/
def handleError (err : ErrValue) : ErrorResponse :=
  match err with
  | .app e =>
    if e.isOparational then
      { status := "error", statusCode := e.statusCode, message := e.message, code := e.code }
    else
      { status := "error"
        statusCode := HttpStatusCodes.INTERNAL_SERVER_ERROR
        message := defaultStatusMessage HttpStatusCodes.INTERNAL_SERVER_ERROR
        code := getStatusCodeKey HttpStatusCodes.INTERNAL_SERVER_ERROR }
  | .other _ _ _ =>
      { status := "error"
        statusCode := HttpStatusCodes.INTERNAL_SERVER_ERROR
        message := defaultStatusMessage HttpStatusCodes.INTERNAL_SERVER_ERROR
        code := getStatusCodeKey HttpStatusCodes.INTERNAL_SERVER_ERROR }

/-! ## The dispatch interceptor (`src/express-error.ts` / `src/index.ts`)

A handler argument is either `undefined` (`none`) or a callback, identified
by a numeric id; `Callback.noop` is the module-level `noop`
(`Function.prototype`), substituted by `(...) || noop` when the selected
argument is falsy. A handler's synchronous result is either a plain
(non-thenable) value or a promise with its eventual outcome; a synchronous
throw is the `Except.error` case. -/

instance {ε α : Type} [DecidableEq ε] [DecidableEq α] : DecidableEq (Except ε α) := fun x y =>
  match x, y with
  | .ok a, .ok b =>
    if h : a = b then .isTrue (h ▸ rfl) else .isFalse (fun hc => h (Except.ok.inj hc))
  | .error a, .error b =>
    if h : a = b then .isTrue (h ▸ rfl) else .isFalse (fun hc => h (Except.error.inj hc))
  | .ok _, .error _ => .isFalse (fun hc => Except.noConfusion hc)
  | .error _, .ok _ => .isFalse (fun hc => Except.noConfusion hc)

/-- A synchronous handler result: a plain value, or a pending promise whose
eventual outcome is known (resolve with a value, or reject with an error). -/
inductive JsResult where
  | value (v : Nat)
  | promise (outcome : Except Nat Nat)
deriving DecidableEq

/-- The error-propagation callback selected by the wrapper: the framework
`next` function (identified by id) or the fallback `noop`. -/
inductive Callback where
  | noop
  | cb (n : Nat)
deriving DecidableEq

/-- `last` from `src/express-error.ts`: `arr[arr.length - 1]`, which is
`undefined` on an empty array (JS `arr[-1]`; `Nat` subtraction makes the
empty case index 0, equally out of bounds). -/
def last (arr : List (Option Nat)) : Option (Option Nat) :=
  arr.get? (arr.length - 1)

/-- The `next` selection in `wrap`:
`(args.length === 5 ? args[2] : last(args)) || noop`.
The outer `Option` is an out-of-bounds index (`undefined`); the inner one a
present-but-falsy (`undefined`) argument; both fall back to `noop`. -/
def chooseNext (args : List (Option Nat)) : Callback :=
  match (if args.length == 5 then args.get? 2 else last args) with
  | some (some n) => Callback.cb n
  | _ => Callback.noop

/-- A JS handler function as `wrap` sees it: its `length` (declared arity),
its own enumerable properties (name-to-value map), and its call behavior
(arguments to synchronous result, `Except.error` = synchronous throw). -/
structure JSFun where
  length : Nat
  props : String → Option Nat
  call : List (Option Nat) → Except Nat JsResult

/-- `copyFnProps` from `src/express-error.ts`: assign every own enumerable
property of `oldFn` onto `newFn`. -/
def copyFnProps (oldFn newFn : String → Option Nat) : String → Option Nat :=
  fun k =>
    match oldFn k with
    | some v => some v
    | none => newFn k

/-- The result of wrapping: same introspection surface, and a call that also
reports the forwarding event (`some (next, err)` when the wrapper's attached
rejection continuation will invoke `next` with `err`). -/
structure WrappedFun where
  length : Nat
  props : String → Option Nat
  call : List (Option Nat) → Except Nat (JsResult × Option (Callback × Nat))

/-- `wrap` from `src/express-error.ts`: call the original with the original
arguments; pick `next` as `(args.length === 5 ? args[2] : last(args)) || noop`;
if the returned value is a promise (has `.catch`), attach a continuation
forwarding a rejection to `next`; return the original result. `length` is
pinned to `fn.length` via `Object.defineProperty`; own enumerable properties
are copied from `fn` (a fresh function has none of its own). -/
def wrap (fn : JSFun) : WrappedFun :=
  { length := fn.length
    props := copyFnProps fn.props (fun _ => none)
    call := fun args =>
      match fn.call args with
      | .error e => .error e
      | .ok ret =>
        let next := chooseNext args
        match ret with
        | .promise (.error err) => .ok (ret, some (next, err))
        | _ => .ok (ret, none) }

/-! ## The terminal handlers

The Express response handle is modelled as a write log plus the current
status; `res.json` may itself throw (Express raises once headers are sent,
or serialization may fail), controlled by `failAt` indexed by the running
count of `json` attempts. -/

/-- One JSON body written by a terminal handler. -/
inductive JsonBody where
  | envelope (e : ErrorResponse)
  | serialized (message : Option String) (status : String) (statusCode : Nat)
  | plain (message : String) (statusCode : Nat)
deriving DecidableEq

/-- The response handle: current status, the log of completed writes
(status line paired with body), the number of `json` attempts so far, and
which attempts throw. -/
structure ResF where
  currentStatus : Nat
  writes : List (Nat × JsonBody)
  calls : Nat
  failAt : Nat → Bool

/-- `res.status(n)`: sets the status line, returns the handle. -/
def ResF.status (res : ResF) (n : Nat) : ResF :=
  { res with currentStatus := n }

/-- `res.json(body)`: throws (`Except.error`, carrying the handle state) if
this attempt is configured to fail, otherwise records the write. -/
def ResF.json (res : ResF) (body : JsonBody) : Except ResF ResF :=
  if res.failAt res.calls then
    .error { res with calls := res.calls + 1 }
  else
    .ok { res with writes := res.writes ++ [(res.currentStatus, body)], calls := res.calls + 1 }

/-- `globalErrorHandler` from `src/error.ts`: format with `handleError`,
then a single `res.status(envelope.statusCode).json({...})` rebuilding the
envelope fields; there is no surrounding try/catch, so a throwing write
escapes the handler. -/
def globalErrorHandler (err : ErrValue) (res : ResF) : Except ResF ResF :=
  let errorResponse := handleError err
  (res.status errorResponse.statusCode).json (.envelope
    { status := errorResponse.status
      statusCode := errorResponse.statusCode
      message := errorResponse.message
      code := errorResponse.code })

/-- `CustomError` from the superseded implementation (`src/unnamed/part_002`):
abstract base with `status`, `message`, `statusCode`. -/
structure CustomError where
  message : Option String
  status : String
  statusCode : Nat
deriving DecidableEq

/-- `CustomError.serializeErrors`: `{message, status, statusCode}`. -/
def CustomError.serializeErrors (e : CustomError) : Option String × String × Nat :=
  (e.message, e.status, e.statusCode)

/-- Input to the superseded handler (`err: any`): a `CustomError` instance
or anything else carrying an optional `message`. -/
inductive ErrAny where
  | custom (e : CustomError)
  | nonCustom (message : Option String)
deriving DecidableEq

/-- `err?.message` for the superseded handler's generic branch. -/
def ErrAny.messageField : ErrAny → Option String
  | .custom e => e.message
  | .nonCustom m => m

/-- `err?.message || "Server Error"`: JS `||` replaces falsy values, so both
`undefined` and the empty string fall back. -/
def messageOrServerError (m : Option String) : String :=
  match m with
  | some s => if s = "" then "Server Error" else s
  | none => "Server Error"

/-- `globalErrorHandler` from the superseded implementation
(`src/unnamed/part_002`): inside a try/catch, write the serialized
`CustomError` when the input is one (no `else`: the generic 500 write then
still follows), and on any throw from those writes, the catch block writes
the fixed `500 {message: "Something went wrong"}` fallback. -/
def globalErrorHandlerLegacy (err : ErrAny) (res : ResF) : Except ResF ResF :=
  let tryBlock : Except ResF ResF :=
    (match err with
     | .custom e =>
        (res.status e.serializeErrors.2.2).json
          (.serialized e.serializeErrors.1 e.serializeErrors.2.1 e.serializeErrors.2.2)
     | .nonCustom _ => .ok res).bind fun r =>
      (r.status 500).json (.plain (messageOrServerError err.messageField) 500)
  match tryBlock with
  | .ok r => .ok r
  | .error r => (r.status 500).json (.plain "Something went wrong" 500)

/-- Did the handler itself throw (escape uncaught)? -/
def threw : Except ResF ResF → Bool
  | .error _ => true
  | .ok _ => false

/-- The write log of the handle after the handler finishes or throws. -/
def resultWrites : Except ResF ResF → List (Nat × JsonBody)
  | .ok r => r.writes
  | .error r => r.writes

/-- The status codes produced by the taxonomy constructors with a given
message: the twenty fixed-status variants, then `ServerError` with its
status-code argument omitted. -/
def variantStatusCodes (m : Option String) : List Nat :=
  [(BadRequestError m).statusCode,
   (UnauthorizedError m).statusCode,
   (PaymentRequiredError m).statusCode,
   (ForbiddenError m).statusCode,
   (NotFoundError m).statusCode,
   (MethodNotAllowedError m).statusCode,
   (NotAcceptableError m).statusCode,
   (RequestTimeoutError m).statusCode,
   (ConflictError m).statusCode,
   (GoneError m).statusCode,
   (PreconditionFailedError m).statusCode,
   (PayloadTooLargeError m).statusCode,
   (UnsupportedMediaTypeError m).statusCode,
   (UnprocessableEntityError m).statusCode,
   (TooManyRequestsError m).statusCode,
   (NotImplementedError m).statusCode,
   (BadGatewayError m).statusCode,
   (ServiceUnavailableError m).statusCode,
   (GatewayTimeoutError m).statusCode,
   (InsufficientStorageError m).statusCode,
   (ServerError m none).statusCode]

/-- Modelled from the spec (claim-side description of the wrapper's callback
selection): a positional-argument slot (`none` = the arity has no such slot),
whose occupant (`none` = `undefined`) falls back to the no-op. Used to state
which positional argument the wrapper forwards failures to. -/
def slotCallback : Option (Option Nat) → Callback
  | some (some n) => Callback.cb n
  | _ => Callback.noop

/-- A four-argument (error-handling signature) handler whose call returns a
promise rejecting with 7, with distinct callbacks in the third and fourth
positions observable in its argument list. -/
def fn4 : JSFun :=
  { length := 4
    props := fun _ => none
    call := fun _ => .ok (.promise (.error 7)) }

/-! ## Theorems -/

/-- In an association list whose values are pairwise distinct, `find?` on a
value that is present returns exactly the pair carrying it. -/
theorem find?_assoc_eq_of_mem {l : List (String × Nat)} {k : String} {v : Nat}
    (hnd : (l.map Prod.snd).Nodup) (hmem : (k, v) ∈ l) :
    l.find? (fun p => p.2 == v) = some (k, v) := by
  induction l with
  | nil => cases hmem
  | cons hd tl ih =>
    rw [List.map_cons, List.nodup_cons] at hnd
    rcases List.mem_cons.mp hmem with heq | htl
    · subst heq
      simp [List.find?]
    · have hv : v ∈ tl.map Prod.snd := List.mem_map.mpr ⟨(k, v), htl, rfl⟩
      have hne : hd.2 ≠ v := fun h => hnd.1 (h ▸ hv)
      rw [List.find?]
      have : (hd.2 == v) = false := beq_false_of_ne hne
      rw [this]
      exact ih hnd.2 htl

/-- The numeric values of the Status Code Table are pairwise distinct, so the
reverse lookup in `getStatusCodeKey` is unambiguous. -/
theorem httpStatusCodes_values_nodup : (HttpStatusCodes.map Prod.snd).Nodup := by decide

/-- `getStatusCodeKey` returns the unique symbolic key of a status code that
is present in the table. -/
theorem getStatusCodeKey_of_mem {k : String} {v : Nat} (hmem : (k, v) ∈ HttpStatusCodes) :
    getStatusCodeKey v = k := by
  unfold getStatusCodeKey
  rw [find?_assoc_eq_of_mem httpStatusCodes_values_nodup hmem]

/-- `getStatusCodeKey` falls back to `"INTERNAL_SERVER_ERROR"` when no table
entry carries the status code. -/
theorem getStatusCodeKey_of_not_mem {v : Nat} (h : v ∉ HttpStatusCodes.map Prod.snd) :
    getStatusCodeKey v = "INTERNAL_SERVER_ERROR" := by
  unfold getStatusCodeKey
  have : HttpStatusCodes.find? (fun p => p.2 == v) = none := by
    rw [List.find?_eq_none]
    intro p hp hbeq
    exact h (List.mem_map.mpr ⟨p, hp, (eq_of_beq hbeq)⟩)
  rw [this]

/-- C2: for every input that is not an operational taxonomy error (any
non-`AppError` value, or an `AppError` with `isOparational = false`),
`handleError` returns exactly
`{status: "error", statusCode: 500, message: "Internal Server Error",
code: "INTERNAL_SERVER_ERROR"}`, independent of the input's own `message`,
`statusCode` or `code` fields. -/
theorem handleError_non_operational_collapses_to_500 (err : ErrValue)
    (h : isOperationalAppError err = false) :
    handleError err = { status := "error", statusCode := 500,
                        message := some "Internal Server Error",
                        code := "INTERNAL_SERVER_ERROR" } := by
  cases err with
  | app e =>
    have hop : e.isOparational = false := h
    simp only [handleError, hop, if_false, Bool.false_eq_true]
    decide
  | other m sc c =>
    simp only [handleError]
    decide

/-- Witness for C2: a non-`AppError` value carrying its own message, status
code and code fields is still collapsed to the generic 500 envelope. -/
theorem handleError_non_operational_collapses_to_500_witness :
    isOperationalAppError (.other (some "boom") (some 404) (some "X")) = false ∧
    handleError (.other (some "boom") (some 404) (some "X")) =
      { status := "error", statusCode := 500,
        message := some "Internal Server Error", code := "INTERNAL_SERVER_ERROR" } :=
  ⟨rfl, handleError_non_operational_collapses_to_500 (.other (some "boom") (some 404) (some "X")) rfl⟩

/-- C3: for every `AppError` with `isOparational = true`, `handleError`
returns the envelope built verbatim from that error's own `statusCode`,
`message` and `code`; in particular a caller-supplied message string is
returned unchanged. -/
theorem handleError_operational_verbatim (e : AppError) (h : e.isOparational = true) :
    handleError (.app e) =
      { status := "error", statusCode := e.statusCode, message := e.message, code := e.code } := by
  simp only [handleError, h, if_true]

/-- Witness for C3: an operational 404 error with an explicit message is
echoed verbatim. -/
theorem handleError_operational_verbatim_witness :
    (⟨some "User not found", 404, true, "NOT_FOUND"⟩ : AppError).isOparational = true ∧
    handleError (.app ⟨some "User not found", 404, true, "NOT_FOUND"⟩) =
      { status := "error", statusCode := 404,
        message := some "User not found", code := "NOT_FOUND" } :=
  ⟨rfl, handleError_operational_verbatim ⟨some "User not found", 404, true, "NOT_FOUND"⟩ rfl⟩

/-- C7: for every `AppError` built by the constructor, an explicit `code`
argument is used unchanged; with `code` omitted, the `code` field is the
symbolic key of the Status Code Table whose numeric value equals the error's
`statusCode`, and if no table entry has that value it is the string
`"INTERNAL_SERVER_ERROR"`. -/
theorem appError_code_derivation (m : Option String) (sc : Nat) (b : Bool) :
    (∀ s, (AppError.make m sc b (some s)).code = s) ∧
    (∀ k, (k, sc) ∈ HttpStatusCodes → (AppError.make m sc b none).code = k) ∧
    (sc ∉ HttpStatusCodes.map Prod.snd →
      (AppError.make m sc b none).code = "INTERNAL_SERVER_ERROR") := by
  refine ⟨fun s => rfl, fun k hk => ?_, fun hn => ?_⟩
  · show getStatusCodeKey sc = k
    exact getStatusCodeKey_of_mem hk
  · show getStatusCodeKey sc = "INTERNAL_SERVER_ERROR"
    exact getStatusCodeKey_of_not_mem hn

/-- Witness for C7: explicit code kept; 404 reverse-looks-up to
`"NOT_FOUND"`; the out-of-table code 999 falls back to
`"INTERNAL_SERVER_ERROR"`. -/
theorem appError_code_derivation_witness :
    (AppError.make (some "x") 404 true (some "CUSTOM")).code = "CUSTOM" ∧
    (("NOT_FOUND", 404) ∈ HttpStatusCodes ∧
      (AppError.make (some "x") 404 true none).code = "NOT_FOUND") ∧
    (999 ∉ HttpStatusCodes.map Prod.snd ∧
      (AppError.make (some "x") 999 true none).code = "INTERNAL_SERVER_ERROR") :=
  ⟨(appError_code_derivation (some "x") 404 true).1 "CUSTOM",
   ⟨by decide, (appError_code_derivation (some "x") 404 true).2.1 "NOT_FOUND" (by decide)⟩,
   ⟨by decide, (appError_code_derivation (some "x") 999 true).2.2 (by decide)⟩⟩

/-- Counterexample for C4: the generic server-error variant has no message
default. `ServerError` constructed with the message omitted carries an
undefined message, not the canonical 500 phrase, even though its status code
is 500 and the table's phrase for 500 exists. -/
theorem serverError_omitted_message_not_defaulted :
    (ServerError none none).statusCode = 500 ∧
    defaultStatusMessage 500 = some "Internal Server Error" ∧
    (ServerError none none).message ≠ some "Internal Server Error" ∧
    (handleError (.app (ServerError none none))).message = none := by decide

/-- C4 (amended): every concrete error variant except the generic
server-error variant, constructed with the message omitted, yields an error
whose message is the Status Code Table's canonical phrase for that variant's
fixed status code — in particular `NotFoundError()` formats to
`{status: "error", statusCode: 404, message: "Not Found", code: "NOT_FOUND"}`
— while `ServerError`'s message parameter has no default (omitting it leaves
the message undefined). -/
theorem defaulted_variants_canonical_envelopes :
    handleError (.app (BadRequestError none)) =
      { status := "error", statusCode := 400, message := some "Bad Request", code := "BAD_REQUEST" } ∧
    handleError (.app (UnauthorizedError none)) =
      { status := "error", statusCode := 401, message := some "Unauthorized", code := "UNAUTHORIZED" } ∧
    handleError (.app (PaymentRequiredError none)) =
      { status := "error", statusCode := 402, message := some "Payment Required", code := "PAYMENT_REQUIRED" } ∧
    handleError (.app (ForbiddenError none)) =
      { status := "error", statusCode := 403, message := some "Forbidden", code := "FORBIDDEN" } ∧
    handleError (.app (NotFoundError none)) =
      { status := "error", statusCode := 404, message := some "Not Found", code := "NOT_FOUND" } ∧
    handleError (.app (MethodNotAllowedError none)) =
      { status := "error", statusCode := 405, message := some "Method Not Allowed", code := "METHOD_NOT_ALLOWED" } ∧
    handleError (.app (NotAcceptableError none)) =
      { status := "error", statusCode := 406, message := some "Not Acceptable", code := "NOT_ACCEPTABLE" } ∧
    handleError (.app (RequestTimeoutError none)) =
      { status := "error", statusCode := 408, message := some "Request Timeout", code := "REQUEST_TIMEOUT" } ∧
    handleError (.app (ConflictError none)) =
      { status := "error", statusCode := 409, message := some "Conflict", code := "CONFLICT" } ∧
    handleError (.app (GoneError none)) =
      { status := "error", statusCode := 410, message := some "Gone", code := "GONE" } ∧
    handleError (.app (PreconditionFailedError none)) =
      { status := "error", statusCode := 412, message := some "Precondition Failed", code := "PRECONDITION_FAILED" } ∧
    handleError (.app (PayloadTooLargeError none)) =
      { status := "error", statusCode := 413, message := some "Payload Too Large", code := "PAYLOAD_TOO_LARGE" } ∧
    handleError (.app (UnsupportedMediaTypeError none)) =
      { status := "error", statusCode := 415, message := some "Unsupported Media Type", code := "UNSUPPORTED_MEDIA_TYPE" } ∧
    handleError (.app (UnprocessableEntityError none)) =
      { status := "error", statusCode := 422, message := some "Unprocessable Entity", code := "UNPROCESSABLE_ENTITY" } ∧
    handleError (.app (TooManyRequestsError none)) =
      { status := "error", statusCode := 429, message := some "Too Many Requests", code := "TOO_MANY_REQUESTS" } ∧
    handleError (.app (NotImplementedError none)) =
      { status := "error", statusCode := 501, message := some "Not Implemented", code := "NOT_IMPLEMENTED" } ∧
    handleError (.app (BadGatewayError none)) =
      { status := "error", statusCode := 502, message := some "Bad Gateway", code := "BAD_GATEWAY" } ∧
    handleError (.app (ServiceUnavailableError none)) =
      { status := "error", statusCode := 503, message := some "Service Unavailable", code := "SERVICE_UNAVAILABLE" } ∧
    handleError (.app (GatewayTimeoutError none)) =
      { status := "error", statusCode := 504, message := some "Gateway Timeout", code := "GATEWAY_TIMEOUT" } ∧
    handleError (.app (InsufficientStorageError none)) =
      { status := "error", statusCode := 507, message := some "Insufficient Storage", code := "INSUFFICIENT_STORAGE" } ∧
    (ServerError none none).message = none := by decide

/-- Counterexample for C8: `ServerError` passes an explicit status-code
argument through unvalidated — `ServerError("x", 999)` carries status code
999, which is in no Status Code Table entry and outside 100–599. -/
theorem serverError_statusCode_unvalidated :
    (ServerError (some "x") (some 999)).statusCode = 999 ∧
    999 ∉ HttpStatusCodes.map Prod.snd ∧ ¬(999 ≤ 599) := by decide

/-- C8 (amended): every fixed-status taxonomy constructor, and `ServerError`
with its status-code argument omitted, produces a `statusCode` that is
present in the Status Code Table and lies within 100–599; but `ServerError`
with an explicit status-code argument passes it through unchanged and
unvalidated, so the invariant does not extend to arbitrary overrides. -/
theorem taxonomy_statusCode_validity (m : Option String) (sc : Nat) :
    (ServerError m (some sc)).statusCode = sc ∧
    variantStatusCodes m =
      [400, 401, 402, 403, 404, 405, 406, 408, 409, 410,
       412, 413, 415, 422, 429, 501, 502, 503, 504, 507, 500] ∧
    ∀ n ∈ [400, 401, 402, 403, 404, 405, 406, 408, 409, 410,
           412, 413, 415, 422, 429, 501, 502, 503, 504, 507, 500],
      n ∈ HttpStatusCodes.map Prod.snd ∧ 100 ≤ n ∧ n ≤ 599 :=
  ⟨rfl, rfl, by decide⟩

/-- Witness for C8 (amended): at message `"x"` and override 418 the
pass-through holds, and the sample fixed code 404 is a valid table entry. -/
theorem taxonomy_statusCode_validity_witness :
    (ServerError (some "x") (some 418)).statusCode = 418 ∧
    (404 ∈ [400, 401, 402, 403, 404, 405, 406, 408, 409, 410,
            412, 413, 415, 422, 429, 501, 502, 503, 504, 507, 500] ∧
     (404 ∈ HttpStatusCodes.map Prod.snd ∧ 100 ≤ 404 ∧ 404 ≤ 599)) :=
  ⟨(taxonomy_statusCode_validity (some "x") 418).1,
   ⟨by decide, (taxonomy_statusCode_validity (some "x") 418).2.2 404 (by decide)⟩⟩

/-- C10: for every concrete error variant whose constructor defaults the
message, passing the empty string as the message produces an error whose
message is exactly the empty string: the canonical-phrase default is applied
only when the argument is omitted or `undefined`, never for other falsy
string values. -/
theorem explicit_message_never_defaulted (s : String) :
    (BadRequestError (some s)).message = some s ∧
    (UnauthorizedError (some s)).message = some s ∧
    (PaymentRequiredError (some s)).message = some s ∧
    (ForbiddenError (some s)).message = some s ∧
    (NotFoundError (some s)).message = some s ∧
    (MethodNotAllowedError (some s)).message = some s ∧
    (NotAcceptableError (some s)).message = some s ∧
    (RequestTimeoutError (some s)).message = some s ∧
    (ConflictError (some s)).message = some s ∧
    (GoneError (some s)).message = some s ∧
    (PreconditionFailedError (some s)).message = some s ∧
    (PayloadTooLargeError (some s)).message = some s ∧
    (UnsupportedMediaTypeError (some s)).message = some s ∧
    (UnprocessableEntityError (some s)).message = some s ∧
    (TooManyRequestsError (some s)).message = some s ∧
    (NotImplementedError (some s)).message = some s ∧
    (BadGatewayError (some s)).message = some s ∧
    (ServiceUnavailableError (some s)).message = some s ∧
    (GatewayTimeoutError (some s)).message = some s ∧
    (InsufficientStorageError (some s)).message = some s ∧
    (NotFoundError (some "")).message = some "" ∧
    (handleError (.app (NotFoundError (some "")))).message = some "" ∧
    (BadRequestError (some "")).message = some "" :=
  ⟨rfl, rfl, rfl, rfl, rfl, rfl, rfl, rfl, rfl, rfl, rfl, rfl,
   rfl, rfl, rfl, rfl, rfl, rfl, rfl, rfl, rfl, by decide, by decide⟩

/-- C5: the terminal error handler of `src/error.ts`, invoked on any failure
value with a response handle whose next write succeeds, performs exactly one
response write: the status line is the formatted envelope's `statusCode` and
the body is the envelope itself; no branch can produce a second write. -/
theorem globalErrorHandler_writes_exactly_once (err : ErrValue) (res : ResF)
    (h : res.failAt res.calls = false) :
    globalErrorHandler err res = .ok
      { res with currentStatus := (handleError err).statusCode,
                 writes := res.writes ++ [((handleError err).statusCode, .envelope (handleError err))],
                 calls := res.calls + 1 } := by
  simp [globalErrorHandler, ResF.status, ResF.json, h]

/-- Witness for C5: an unrecognized failure against a fresh response handle
produces the single generic 500 write. -/
theorem globalErrorHandler_writes_exactly_once_witness :
    ((⟨200, [], 0, fun _ => false⟩ : ResF).failAt 0 = false) ∧
    globalErrorHandler (.other none none none) ⟨200, [], 0, fun _ => false⟩ =
      .ok ⟨500,
        [(500, .envelope
          { status := "error", statusCode := 500,
            message := some "Internal Server Error", code := "INTERNAL_SERVER_ERROR" })],
        1, fun _ => false⟩ :=
  ⟨rfl, globalErrorHandler_writes_exactly_once (.other none none none) ⟨200, [], 0, fun _ => false⟩ rfl⟩

/-- Counterexample for C6: the current terminal error handler
(`src/error.ts`) has no top-level guard — when the response write throws,
the handler lets the exception escape and writes no fallback at all, in
particular no `500 "Something went wrong"` response. -/
theorem globalErrorHandler_unguarded_counterexample :
    threw (globalErrorHandler (.other none none none) ⟨200, [], 0, fun n => n == 0⟩) = true ∧
    resultWrites (globalErrorHandler (.other none none none) ⟨200, [], 0, fun n => n == 0⟩) = [] :=
  ⟨rfl, rfl⟩

/-- C6 (amended): only the superseded terminal-handler variant
(`src/unnamed/part_002`) is wrapped in a top-level guard: when a write
throws there, it catches and writes the fixed fallback response with status
500 and message "Something went wrong"; the current terminal handler of
`src/error.ts` performs its single write unguarded, so a throwing write
escapes and no fallback is written. -/
theorem terminal_handler_guard_location (errA : ErrValue) (errB : ErrAny) (res : ResF)
    (h1 : res.failAt res.calls = true) (h2 : res.failAt (res.calls + 1) = false) :
    (∃ r, globalErrorHandler errA res = .error r ∧ r.writes = res.writes) ∧
    (∃ r, globalErrorHandlerLegacy errB res = .ok r ∧
       r.writes = res.writes ++ [(500, .plain "Something went wrong" 500)]) := by
  constructor
  · exact ⟨{ res with currentStatus := (handleError errA).statusCode, calls := res.calls + 1 },
      by simp [globalErrorHandler, ResF.status, ResF.json, h1], rfl⟩
  · refine ⟨{ res with
        currentStatus := 500
        writes := res.writes ++ [(500, .plain "Something went wrong" 500)]
        calls := res.calls + 2 }, ?_, rfl⟩
    cases errB with
    | custom e =>
      simp [globalErrorHandlerLegacy, CustomError.serializeErrors, ResF.status, ResF.json,
            h1, h2, Except.bind]
    | nonCustom m =>
      simp [globalErrorHandlerLegacy, ResF.status, ResF.json, h1, h2, Except.bind]

/-- Witness for C6 (amended): against a handle whose first write throws and
whose second succeeds, the current handler escapes with nothing written
while the superseded handler writes the fallback. -/
theorem terminal_handler_guard_location_witness :
    ((⟨200, [], 0, fun n => n == 0⟩ : ResF).failAt 0 = true) ∧
    ((⟨200, [], 0, fun n => n == 0⟩ : ResF).failAt (0 + 1) = false) ∧
    ((∃ r, globalErrorHandler (.other none none none) ⟨200, [], 0, fun n => n == 0⟩ = .error r ∧
        r.writes = []) ∧
     (∃ r, globalErrorHandlerLegacy (.nonCustom none) ⟨200, [], 0, fun n => n == 0⟩ = .ok r ∧
        r.writes = [(500, .plain "Something went wrong" 500)])) :=
  ⟨rfl, rfl,
   terminal_handler_guard_location (.other none none none) (.nonCustom none)
     ⟨200, [], 0, fun n => n == 0⟩ rfl rfl⟩

/-- Counterexample for C1: for a handler invoked with the 4-argument
error-handling signature, the wrapper forwards the asynchronous failure to
the LAST positional argument (the fourth), not the third: with distinct
callbacks 2 and 3 in the third and fourth positions, the rejection of the
returned promise is forwarded to callback 3. -/
theorem wrap_four_arg_forwards_last_not_third :
    ((wrap fn4).call [none, none, some 2, some 3] =
      .ok (.promise (.error 7), some (Callback.cb 3, 7))) ∧
    ([none, none, some 2, some 3] : List (Option Nat)).get? 2 = some (some 2) ∧
    Callback.cb 3 ≠ Callback.cb 2 :=
  ⟨rfl, rfl, by decide⟩

/-- C1 (amended): for every wrapped handler whose call returns a rejecting
promise, the wrapper forwards the failure to the callback chosen by arity:
for the 5-argument (route-parameter) signature the third positional
argument, and for every other arity the last positional argument; a missing
or `undefined` slot falls back to the no-op, so forwarding never throws from
within the wrapper. -/
theorem wrap_next_selection_by_arity (fn : JSFun) (args : List (Option Nat)) (err : Nat)
    (h : fn.call args = .ok (.promise (.error err))) :
    (wrap fn).call args = .ok (.promise (.error err), some (chooseNext args, err)) ∧
    (args.length = 5 → chooseNext args = slotCallback (args.get? 2)) ∧
    (args.length ≠ 5 → chooseNext args = slotCallback args.getLast?) := by
  refine ⟨by simp [wrap, h], fun h5 => by simp [chooseNext, slotCallback, h5], fun h5 => ?_⟩
  have hb : (args.length == 5) = false := by simpa using h5
  have hlast : args.getLast? = args[args.length - 1]? := List.getLast?_eq_getElem? args
  simp only [chooseNext, slotCallback, hb, last, List.get?_eq_getElem?, Bool.false_eq_true,
    if_false, hlast]

/-- Witness for C1 (amended): the concrete four-argument handler above has
its rejection forwarded to the last positional argument. -/
theorem wrap_next_selection_by_arity_witness :
    (fn4.call [none, none, some 2, some 3] = .ok (.promise (.error 7))) ∧
    ((wrap fn4).call [none, none, some 2, some 3] =
        .ok (.promise (.error 7), some (chooseNext [none, none, some 2, some 3], 7)) ∧
     (([none, none, some 2, some 3] : List (Option Nat)).length = 5 →
        chooseNext [none, none, some 2, some 3] =
          slotCallback (([none, none, some 2, some 3] : List (Option Nat)).get? 2)) ∧
     (([none, none, some 2, some 3] : List (Option Nat)).length ≠ 5 →
        chooseNext [none, none, some 2, some 3] =
          slotCallback ([none, none, some 2, some 3] : List (Option Nat)).getLast?)) :=
  ⟨rfl, wrap_next_selection_by_arity fn4 [none, none, some 2, some 3] 7 rfl⟩

/-- C9: `wrap(fn)` has the identical calling convention to `fn`: its
declared arity (`length`) equals `fn`'s, its own enumerable properties are
those of `fn`, and invoking it calls `fn` with the original arguments,
synchronously returning the same value and propagating a synchronous throw
exactly as `fn` would. -/
theorem wrap_preserves_calling_convention (fn : JSFun) :
    (wrap fn).length = fn.length ∧
    (∀ k, (wrap fn).props k = fn.props k) ∧
    (∀ args, ((wrap fn).call args).map Prod.fst = fn.call args) := by
  refine ⟨rfl, fun k => ?_, fun args => ?_⟩
  · simp only [wrap, copyFnProps]
    cases fn.props k <;> rfl
  · simp only [wrap]
    cases hc : fn.call args with
    | error e => rfl
    | ok ret =>
      cases ret with
      | value v => rfl
      | promise o => cases o with
        | ok v => rfl
        | error er => rfl
